import Mathlib

/-!
Shallow embedding of the room concurrency core of the rust-chat-server repository.

The embedding covers the per-room state and operations from
`src/server/src/room_manager/room/chat_room.rs` and
`src/server/src/room_manager/room/user_session_handle.rs`:
the bounded message history, the user registry, the broadcast channel, and the
join / leave / send_message / record_message / get_history operations.

Stateful Rust code is modelled as explicit state passing: each operation takes the
`ChatRoom` state and returns the updated state together with a trace of the primitive
effects it performed (`RoomAction`), in the order the source performs them.  The tokio
broadcast channel is modelled as a list of subscriber queues: `subscribe` appends a
fresh empty queue and returns its index, `send` appends the event to every queue
(dropping the oldest entry of a queue past the channel capacity, as a lagging tokio
receiver skips the oldest events) and fails exactly when there is no receiver, which
is the condition under which `tokio::sync::broadcast::Sender::send` returns `Err`.
-/

set_option linter.unusedVariables false

/-- Mirrors `ChatRoomMetadata` (chat_room.rs lines 15-18). -/
structure ChatRoomMetadata where
  name : String
  description : String
  deriving DecidableEq

/-- Mirrors `SessionAndUserId` (user_session_handle.rs lines 10-13). -/
structure SessionAndUserId where
  session_id : String
  user_id : String
  deriving DecidableEq

/-- Mirrors `comms::event::UserMessageBroadcastEvent` as constructed in the source
(fields `room`, `user_id`, `content`). -/
structure UserMessageBroadcastEvent where
  room : String
  user_id : String
  content : String
  deriving DecidableEq

/-- Mirrors `comms::event::RoomParticipationStatus`. -/
inductive RoomParticipationStatus
  | Joined
  | Left
  deriving DecidableEq

/-- Mirrors `comms::event::RoomParticipationBroadcastEvent` as constructed in the source
(fields `user_id`, `room`, `status`). -/
structure RoomParticipationBroadcastEvent where
  user_id : String
  room : String
  status : RoomParticipationStatus
  deriving DecidableEq

/-- Mirrors `comms::event::Event`, the sum type carried on the broadcast channel. -/
inductive Event
  | UserMessage (e : UserMessageBroadcastEvent)
  | RoomParticipation (e : RoomParticipationBroadcastEvent)
  deriving DecidableEq

/-- `BROADCAST_CHANNEL_CAPACITY` (chat_room.rs line 20). -/
def BROADCAST_CHANNEL_CAPACITY : Nat := 100

/-- `MAX_HISTORY` (chat_room.rs line 21). -/
def MAX_HISTORY : Nat := 10

/-- One subscriber of the broadcast channel: its queue of pending events, oldest first. -/
structure BroadcastReceiver where
  queue : List Event
  deriving DecidableEq

/-- The tokio broadcast channel, modelled by the queues of its current receivers. -/
structure BroadcastChannel where
  receivers : List BroadcastReceiver
  deriving DecidableEq

/-- `broadcast_tx.subscribe()`: adds a fresh empty receiver queue; the returned index
identifies the new receiver.  A fresh receiver sees only events sent after this point. -/
def BroadcastChannel.subscribe (ch : BroadcastChannel) : BroadcastChannel × Nat :=
  (⟨ch.receivers ++ [⟨[]⟩]⟩, ch.receivers.length)

/-- Delivery of one event to one receiver: the event is appended to the queue and, if
the queue exceeds the channel capacity, the oldest pending event is dropped (a lagging
tokio broadcast receiver skips the oldest events rather than blocking the sender). -/
def BroadcastReceiver.push (r : BroadcastReceiver) (e : Event) : BroadcastReceiver :=
  let q := r.queue ++ [e]
  ⟨if BROADCAST_CHANNEL_CAPACITY < q.length then q.tail else q⟩

/-- `broadcast_tx.send(e)`: delivers to every current receiver; returns `false`
(tokio: `Err(SendError)`) exactly when there is no receiver. -/
def BroadcastChannel.send (ch : BroadcastChannel) (e : Event) : BroadcastChannel × Bool :=
  if ch.receivers.isEmpty then (ch, false)
  else (⟨ch.receivers.map (fun r => r.push e)⟩, true)

/-- Modelled from the spec: the file `src/server/src/room_manager/room/user_registry.rs`
is not present under `src/`; only its callers in `chat_room.rs` are.  Per spec sections 3
and 4.1, `UserRegistry` is a mapping from `userId` to the count of active sessions for
that user in this room. -/
structure UserRegistry where
  counts : String → Nat

/-- Modelled from the spec: `UserRegistry::new()` starts with no active sessions. -/
def UserRegistry.new : UserRegistry := ⟨fun _ => 0⟩

/-- Modelled from the spec: `insert(identity) -> bool` increments the session count for
`identity.userId` and returns `true` iff the count became 1 (first session). -/
def UserRegistry.insert (reg : UserRegistry) (user_id : String) : UserRegistry × Bool :=
  let n := reg.counts user_id + 1
  (⟨fun u => if u = user_id then n else reg.counts u⟩, n == 1)

/-- Modelled from the spec: `remove(identity) -> bool` decrements the count for
`identity.userId` (clamped, never going below zero) and returns `true` iff the count
became 0 (last session, i.e. the count transitioned 1 to 0). -/
def UserRegistry.remove (reg : UserRegistry) (user_id : String) : UserRegistry × Bool :=
  (⟨fun u => if u = user_id then reg.counts user_id - 1 else reg.counts u⟩,
   reg.counts user_id == 1)

/-- Mirrors `UserSessionHandle` (user_session_handle.rs lines 20-29).  The cloned
broadcast sender and the `Arc<Mutex<ChatRoom>>` both refer to shared state that the
embedding threads explicitly, so the handle itself keeps only the room name and the
identity pair. -/
structure UserSessionHandle where
  room : String
  session_and_user_id : SessionAndUserId
  deriving DecidableEq

/-- `UserSessionHandle::new` (user_session_handle.rs lines 32-44). -/
def UserSessionHandle.new (room : String) (s : SessionAndUserId) : UserSessionHandle :=
  ⟨room, s⟩

/-- `UserSessionHandle::user_id` accessor (user_session_handle.rs lines 54-56). -/
def UserSessionHandle.user_id (h : UserSessionHandle) : String :=
  h.session_and_user_id.user_id

/-- `UserSessionHandle::session_id` accessor (user_session_handle.rs lines 50-52). -/
def UserSessionHandle.session_id (h : UserSessionHandle) : String :=
  h.session_and_user_id.session_id

/-- The room state (chat_room.rs lines 26-31): metadata, broadcast channel,
user registry, and the bounded history (front of the list = oldest, as in the
`VecDeque` with `push_back` / `pop_front`). -/
structure ChatRoom where
  metadata : ChatRoomMetadata
  broadcast_tx : BroadcastChannel
  user_registry : UserRegistry
  history : List UserMessageBroadcastEvent

/-- `ChatRoom::new` (chat_room.rs lines 34-43). -/
def ChatRoom.new (metadata : ChatRoomMetadata) : ChatRoom :=
  ⟨metadata, ⟨[]⟩, UserRegistry.new, []⟩

/-- The primitive effects a room operation performs, in source order, reifying the
order of the statements in the Rust functions. -/
inductive RoomAction
  | cloneSender
  | subscribeReceiver
  | constructHandle
  | registryInsert (user_id : String) (first : Bool)
  | registryRemove (user_id : String) (last : Bool)
  | appendHistory (e : UserMessageBroadcastEvent)
  | channelSend (e : Event) (ok : Bool)
  deriving DecidableEq

/-- Result of `ChatRoom::join`: the updated room, the index of the subscribed
broadcast receiver, the handle, and the trace of effects. -/
structure JoinResult where
  room : ChatRoom
  rx : Nat
  handle : UserSessionHandle
  trace : List RoomAction

/-- Result of `ChatRoom::leave`: the updated room and the trace of effects. -/
structure LeaveResult where
  room : ChatRoom
  trace : List RoomAction

/-- Result of `ChatRoom::send_message`: the updated room and the trace of effects. -/
structure SendResult where
  room : ChatRoom
  trace : List RoomAction

/-- Result of `UserSessionHandle::send_message`: the updated room, the
`anyhow::Result<()>` return value, and the trace of effects. -/
structure HandleSendResult where
  room : ChatRoom
  result : Except String Unit
  trace : List RoomAction

/-- `ChatRoom::join` (chat_room.rs lines 55-82): clone the sender, subscribe a fresh
receiver, construct the `UserSessionHandle`, insert into the user registry, and, if
this was the user's first session, broadcast `RoomParticipation{Joined}` with the
send result discarded (`let _ =`).  The receiver and handle are returned
unconditionally. -/
def ChatRoom.join (r : ChatRoom) (s : SessionAndUserId) : JoinResult :=
  let broadcast_tx := r.broadcast_tx
  let (ch1, rx) := broadcast_tx.subscribe
  let user_session_handle := UserSessionHandle.new r.metadata.name s
  let (reg1, first) := r.user_registry.insert user_session_handle.user_id
  if first then
    let ev : Event := .RoomParticipation ⟨s.user_id, r.metadata.name, .Joined⟩
    let (ch2, ok) := ch1.send ev
    ⟨{ r with broadcast_tx := ch2, user_registry := reg1 }, rx, user_session_handle,
      [.cloneSender, .subscribeReceiver, .constructHandle,
       .registryInsert user_session_handle.user_id first, .channelSend ev ok]⟩
  else
    ⟨{ r with broadcast_tx := ch1, user_registry := reg1 }, rx, user_session_handle,
      [.cloneSender, .subscribeReceiver, .constructHandle,
       .registryInsert user_session_handle.user_id first]⟩

/-- `ChatRoom::leave` (chat_room.rs lines 86-96): remove from the user registry and,
if this was the user's last session, broadcast `RoomParticipation{Left}` with the send
result discarded (`let _ =`). -/
def ChatRoom.leave (r : ChatRoom) (h : UserSessionHandle) : LeaveResult :=
  let (reg1, last) := r.user_registry.remove h.user_id
  if last then
    let ev : Event := .RoomParticipation ⟨h.user_id, r.metadata.name, .Left⟩
    let (ch1, ok) := r.broadcast_tx.send ev
    ⟨{ r with broadcast_tx := ch1, user_registry := reg1 },
      [.registryRemove h.user_id last, .channelSend ev ok]⟩
  else
    ⟨{ r with user_registry := reg1 }, [.registryRemove h.user_id last]⟩

/-- The history update shared verbatim by `ChatRoom::send_message` (chat_room.rs lines
106-109) and `ChatRoom::record_message` (lines 117-121): `push_back` the event, then
`pop_front` if the length exceeds `MAX_HISTORY`. -/
def pushEvict (h : List UserMessageBroadcastEvent) (e : UserMessageBroadcastEvent) :
    List UserMessageBroadcastEvent :=
  let h1 := h ++ [e]
  if MAX_HISTORY < h1.length then h1.tail else h1

/-- `ChatRoom::send_message` (chat_room.rs lines 99-113): construct the `UserMessage`
event from the room name and the arguments, append it to the history (with eviction),
then broadcast it with the send result discarded (`let _ =`). -/
def ChatRoom.send_message (r : ChatRoom) (user_id content : String) : SendResult :=
  let message_event : UserMessageBroadcastEvent := ⟨r.metadata.name, user_id, content⟩
  let h2 := pushEvict r.history message_event
  let (ch1, ok) := r.broadcast_tx.send (.UserMessage message_event)
  ⟨{ r with history := h2, broadcast_tx := ch1 },
    [.appendHistory message_event, .channelSend (.UserMessage message_event) ok]⟩

/-- `ChatRoom::record_message` (chat_room.rs lines 116-122): append to the history
(with eviction) and nothing else. -/
def ChatRoom.record_message (r : ChatRoom) (message : UserMessageBroadcastEvent) :
    ChatRoom :=
  { r with history := pushEvict r.history message }

/-- `ChatRoom::get_history` (chat_room.rs lines 125-127): a copy of the history,
oldest first. -/
def ChatRoom.get_history (r : ChatRoom) : List UserMessageBroadcastEvent :=
  r.history

/-- `UserSessionHandle::send_message` (user_session_handle.rs lines 59-76): construct
the `UserMessage` event from the handle's room and identity, record it in the room's
history under the room lock, then send it on the broadcast channel; the call returns
`Err` exactly when the channel send fails. -/
def UserSessionHandle.send_message (h : UserSessionHandle) (r : ChatRoom)
    (content : String) : HandleSendResult :=
  let message_event : UserMessageBroadcastEvent :=
    ⟨h.room, h.session_and_user_id.user_id, content⟩
  let r1 := r.record_message message_event
  let (ch1, ok) := r1.broadcast_tx.send (.UserMessage message_event)
  ⟨{ r1 with broadcast_tx := ch1 },
    if ok then .ok () else .error "could not write to the broadcast channel",
    [.appendHistory message_event, .channelSend (.UserMessage message_event) ok]⟩

/-- One message-adding step for the history claims: either `ChatRoom::send_message`
with a user id and content, or `ChatRoom::record_message` with a ready event. -/
inductive AddMsg
  | send (user_id content : String)
  | record (e : UserMessageBroadcastEvent)
  deriving DecidableEq

/-- The event a given `AddMsg` step appends to the history of a room named
`roomName`. -/
def AddMsg.event (roomName : String) : AddMsg → UserMessageBroadcastEvent
  | .send user_id content => ⟨roomName, user_id, content⟩
  | .record e => e

/-- Apply one message-adding step to the room. -/
def ChatRoom.applyAdd (r : ChatRoom) : AddMsg → ChatRoom
  | .send user_id content => (r.send_message user_id content).room
  | .record e => r.record_message e

/-- Apply a sequence of message-adding steps to the room, in order. -/
def ChatRoom.applyAdds (r : ChatRoom) (ops : List AddMsg) : ChatRoom :=
  ops.foldl ChatRoom.applyAdd r

/-- The last `MAX_HISTORY` elements of a list (the whole list when it is shorter). -/
def lastTen (l : List UserMessageBroadcastEvent) : List UserMessageBroadcastEvent :=
  l.drop (l.length - MAX_HISTORY)

/-- Whether a trace entry is a broadcast send of a participation event with the given
status. -/
def RoomAction.isParticipationSend (st : RoomParticipationStatus) : RoomAction → Bool
  | .channelSend (.RoomParticipation p) _ => p.status == st
  | _ => false

/-- How many participation events with the given status a trace hands to the
broadcast channel. -/
def participationSends (t : List RoomAction) (st : RoomParticipationStatus) : Nat :=
  (t.filter (RoomAction.isParticipationSend st)).length

/-- A demo room used by concrete witnesses. -/
def demoRoom : ChatRoom := ChatRoom.new ⟨"general", "demo"⟩

/-- A demo sequence of twelve message-adding steps, mixing both paths. -/
def demoAdds : List AddMsg :=
  (List.range 6).map (fun i => AddMsg.send "alice" (toString i)) ++
  (List.range 6).map (fun i => AddMsg.record ⟨"general", "bob", toString i⟩)

/-! ### Helper lemmas -/

theorem length_lastTen (l : List UserMessageBroadcastEvent) :
    (lastTen l).length = min l.length MAX_HISTORY := by
  simp [lastTen]
  omega

theorem tail_append_of_left_ne_nil {α : Type} (l₁ l₂ : List α) (h : l₁ ≠ []) :
    (l₁ ++ l₂).tail = l₁.tail ++ l₂ := by
  cases l₁ with
  | nil => exact absurd rfl h
  | cons a t => simp

theorem pushEvict_lastTen (l : List UserMessageBroadcastEvent)
    (e : UserMessageBroadcastEvent) :
    pushEvict (lastTen l) e = lastTen (l ++ [e]) := by
  have hM : MAX_HISTORY = 10 := rfl
  by_cases h : l.length < MAX_HISTORY
  · have h0 : l.length - MAX_HISTORY = 0 := by omega
    simp only [pushEvict, lastTen, h0, List.drop_zero, List.length_append,
      List.length_singleton]
    rw [if_neg (by omega), show l.length + 1 - MAX_HISTORY = 0 by omega, List.drop_zero]
  · have h10 : MAX_HISTORY ≤ l.length := le_of_not_lt h
    have hlen : (l.drop (l.length - MAX_HISTORY)).length = MAX_HISTORY := by
      simp only [List.length_drop]
      omega
    have hne : l.drop (l.length - MAX_HISTORY) ≠ [] := by
      intro hnil
      rw [hnil] at hlen
      simp [hM] at hlen
    simp only [pushEvict, lastTen, List.length_append, List.length_singleton, hlen]
    rw [if_pos (by omega),
      List.drop_append_of_le_length (by omega),
      tail_append_of_left_ne_nil _ _ hne, List.tail_drop]
    congr 2
    omega

theorem applyAdd_metadata (r : ChatRoom) (op : AddMsg) :
    (r.applyAdd op).metadata = r.metadata := by
  cases op <;> rfl

theorem applyAdd_history (r : ChatRoom) (op : AddMsg) :
    (r.applyAdd op).history = pushEvict r.history (op.event r.metadata.name) := by
  cases op <;> rfl

theorem applyAdds_history (ops : List AddMsg) (r : ChatRoom)
    (l : List UserMessageBroadcastEvent) (hh : r.history = lastTen l) :
    (r.applyAdds ops).history =
      lastTen (l ++ ops.map (AddMsg.event r.metadata.name)) := by
  induction ops generalizing r l with
  | nil => simpa [ChatRoom.applyAdds] using hh
  | cons op rest ih =>
    have hmeta : (r.applyAdd op).metadata = r.metadata := applyAdd_metadata r op
    have hstep : (r.applyAdd op).history = lastTen (l ++ [op.event r.metadata.name]) := by
      rw [applyAdd_history, hh, pushEvict_lastTen]
    have h2 := ih (r.applyAdd op) (l ++ [op.event r.metadata.name]) hstep
    rw [hmeta] at h2
    simpa [ChatRoom.applyAdds, List.append_assoc] using h2

/-! ### Claims -/

/-- C1: for every sequence of N messages added to one room through any mix of
`ChatRoom::send_message` and `ChatRoom::record_message`, `get_history()` afterwards
returns exactly `min(N, 10)` entries, and those entries are exactly the last 10
messages in arrival order, oldest first. -/
theorem history_bounded_fifo (r : ChatRoom) (ops : List AddMsg)
    (hh : r.history = []) :
    (r.applyAdds ops).get_history =
      lastTen (ops.map (AddMsg.event r.metadata.name)) ∧
    (r.applyAdds ops).get_history.length = min ops.length MAX_HISTORY := by
  have h0 : r.history = lastTen [] := by rw [hh]; rfl
  have h := applyAdds_history ops r [] h0
  simp only [List.nil_append] at h
  refine ⟨h, ?_⟩
  rw [ChatRoom.get_history, h, length_lastTen]
  simp

/-- Witness for C1 at a concrete room and a concrete mixed sequence of twelve
messages. -/
theorem history_bounded_fifo_witness :
    demoRoom.history = [] ∧
    ((demoRoom.applyAdds demoAdds).get_history =
        lastTen (demoAdds.map (AddMsg.event demoRoom.metadata.name)) ∧
      (demoRoom.applyAdds demoAdds).get_history.length =
        min demoAdds.length MAX_HISTORY) :=
  ⟨rfl, history_bounded_fifo demoRoom demoAdds rfl⟩

theorem pushEvict_of_lt (l : List UserMessageBroadcastEvent)
    (e : UserMessageBroadcastEvent) (hlt : l.length < MAX_HISTORY) :
    pushEvict l e = l ++ [e] := by
  have hM : MAX_HISTORY = 10 := rfl
  simp only [pushEvict]
  rw [if_neg (by simp only [List.length_append, List.length_singleton]; omega)]

theorem pushEvict_of_ge (l : List UserMessageBroadcastEvent)
    (e : UserMessageBroadcastEvent) (hge : MAX_HISTORY ≤ l.length) :
    pushEvict l e = l.tail ++ [e] := by
  have hM : MAX_HISTORY = 10 := rfl
  have hne : l ≠ [] := by
    intro hnil
    rw [hnil] at hge
    simp [hM] at hge
  simp only [pushEvict]
  rw [if_pos (by simp only [List.length_append, List.length_singleton]; omega),
    tail_append_of_left_ne_nil _ _ hne]

theorem mem_pushEvict (l : List UserMessageBroadcastEvent)
    (e : UserMessageBroadcastEvent) : e ∈ pushEvict l e := by
  by_cases hlt : l.length < MAX_HISTORY
  · rw [pushEvict_of_lt l e hlt]
    simp
  · rw [pushEvict_of_ge l e (le_of_not_lt hlt)]
    simp

theorem send_snd (ch : BroadcastChannel) (e : Event) :
    (ch.send e).2 = !ch.receivers.isEmpty := by
  by_cases h : ch.receivers.isEmpty <;> simp [BroadcastChannel.send, h]

theorem send_receivers_of_ne_nil (ch : BroadcastChannel) (e : Event)
    (h : ch.receivers ≠ []) :
    (ch.send e).1.receivers = ch.receivers.map (fun q => q.push e) := by
  have hemp : ch.receivers.isEmpty = false := by simp [List.isEmpty_iff, h]
  simp [BroadcastChannel.send, hemp]

theorem getD_append_length {α : Type} (l : List α) (x d : α) :
    (l ++ [x]).getD l.length d = x := by
  induction l with
  | nil => rfl
  | cons a t ih => simp [ih]

/-- C6: for every identity, `UserRegistry.insert` increments the session count for
the identity's userId and returns true iff the count became 1; `UserRegistry.remove`
decrements the count and returns true iff the count became 0 (transitioned from 1);
the count never goes below zero, even when remove is called for an identity that was
never inserted. -/
theorem user_registry_insert_remove (reg : UserRegistry) (u : String) :
    ((reg.insert u).1.counts u = reg.counts u + 1) ∧
    ((reg.insert u).2 = true ↔ reg.counts u = 0) ∧
    ((reg.remove u).1.counts u = reg.counts u - 1) ∧
    ((reg.remove u).2 = true ↔ reg.counts u = 1) ∧
    (reg.counts u = 0 → (reg.remove u).1.counts u = 0) := by
  refine ⟨by simp [UserRegistry.insert], ?_, by simp [UserRegistry.remove], ?_, ?_⟩
  · simp only [UserRegistry.insert, beq_iff_eq]
    omega
  · simp only [UserRegistry.remove, beq_iff_eq]
  · intro h0
    simp [UserRegistry.remove, h0]

/-- Witness for C6 at the empty registry: removing a never-inserted identity leaves
its count clamped at zero. -/
theorem user_registry_insert_remove_witness :
    (UserRegistry.new.counts "alice" = 0) ∧
    ((UserRegistry.new.remove "alice").1.counts "alice" = 0) :=
  ⟨rfl, (user_registry_insert_remove UserRegistry.new "alice").2.2.2.2 rfl⟩

/-- C8: `ChatRoom::record_message` appends the event to the history with the same
capacity-10 eviction policy as `send_message` and changes nothing else: nothing is
sent on the broadcast channel (every receiver queue is untouched), and the metadata
and user registry are unchanged. -/
theorem record_message_frame (r : ChatRoom) (m : UserMessageBroadcastEvent) :
    (r.history.length < MAX_HISTORY →
      (r.record_message m).history = r.history ++ [m]) ∧
    (MAX_HISTORY ≤ r.history.length →
      (r.record_message m).history = r.history.tail ++ [m]) ∧
    (r.record_message m).broadcast_tx = r.broadcast_tx ∧
    (r.record_message m).metadata = r.metadata ∧
    (r.record_message m).user_registry = r.user_registry := by
  refine ⟨?_, ?_, rfl, rfl, rfl⟩
  · intro hlt
    show pushEvict r.history m = r.history ++ [m]
    exact pushEvict_of_lt r.history m hlt
  · intro hge
    show pushEvict r.history m = r.history.tail ++ [m]
    exact pushEvict_of_ge r.history m hge

/-- Witness for C8 at a concrete room below capacity. -/
theorem record_message_frame_witness :
    (demoRoom.history.length < MAX_HISTORY) ∧
    ((demoRoom.record_message ⟨"general", "u", "hi"⟩).history =
      demoRoom.history ++ [⟨"general", "u", "hi"⟩]) :=
  ⟨by decide, (record_message_frame demoRoom ⟨"general", "u", "hi"⟩).1 (by decide)⟩

/-- C7: `ChatRoom::send_message` constructs a `UserMessage` event carrying the room's
name, the given userId and the given content, appends it to the history (evicting the
oldest entry if the history is at capacity), and then broadcasts the same event; the
append happens before the broadcast attempt (trace order). -/
theorem send_message_spec (r : ChatRoom) (user_id content : String) :
    (r.history.length < MAX_HISTORY →
      (r.send_message user_id content).room.history =
        r.history ++ [⟨r.metadata.name, user_id, content⟩]) ∧
    (MAX_HISTORY ≤ r.history.length →
      (r.send_message user_id content).room.history =
        r.history.tail ++ [⟨r.metadata.name, user_id, content⟩]) ∧
    (r.send_message user_id content).trace =
      [RoomAction.appendHistory ⟨r.metadata.name, user_id, content⟩,
       RoomAction.channelSend
         (Event.UserMessage ⟨r.metadata.name, user_id, content⟩)
         (!r.broadcast_tx.receivers.isEmpty)] := by
  refine ⟨?_, ?_, ?_⟩
  · intro hlt
    show pushEvict r.history ⟨r.metadata.name, user_id, content⟩ = _
    exact pushEvict_of_lt r.history _ hlt
  · intro hge
    show pushEvict r.history ⟨r.metadata.name, user_id, content⟩ = _
    exact pushEvict_of_ge r.history _ hge
  · show [RoomAction.appendHistory ⟨r.metadata.name, user_id, content⟩,
      RoomAction.channelSend
        (Event.UserMessage ⟨r.metadata.name, user_id, content⟩)
        ((r.broadcast_tx.send
          (Event.UserMessage ⟨r.metadata.name, user_id, content⟩)).2)] = _
    rw [send_snd]

/-- Witness for C7 at a concrete room below capacity. -/
theorem send_message_spec_witness :
    (demoRoom.history.length < MAX_HISTORY) ∧
    ((demoRoom.send_message "alice" "hello").room.history =
      demoRoom.history ++ [⟨demoRoom.metadata.name, "alice", "hello"⟩]) :=
  ⟨by decide, (send_message_spec demoRoom "alice" "hello").1 (by decide)⟩

/-- C3: `UserSessionHandle::send_message` first records the constructed `UserMessage`
event in the room's history and only then attempts the broadcast send (trace order);
it returns `Err` exactly when the broadcast send fails (no receiver on the channel);
and in every case the message is present in `get_history()` immediately after the
call returns. -/
theorem handle_send_message_spec (h : UserSessionHandle) (r : ChatRoom)
    (content : String) :
    (h.send_message r content).trace =
      [RoomAction.appendHistory ⟨h.room, h.session_and_user_id.user_id, content⟩,
       RoomAction.channelSend
         (Event.UserMessage ⟨h.room, h.session_and_user_id.user_id, content⟩)
         (!r.broadcast_tx.receivers.isEmpty)] ∧
    ((h.send_message r content).result =
      if r.broadcast_tx.receivers.isEmpty then
        Except.error "could not write to the broadcast channel"
      else Except.ok ()) ∧
    (⟨h.room, h.session_and_user_id.user_id, content⟩ : UserMessageBroadcastEvent) ∈
      (h.send_message r content).room.get_history := by
  refine ⟨?_, ?_, ?_⟩
  · show [RoomAction.appendHistory ⟨h.room, h.session_and_user_id.user_id, content⟩,
      RoomAction.channelSend
        (Event.UserMessage ⟨h.room, h.session_and_user_id.user_id, content⟩)
        ((r.broadcast_tx.send
          (Event.UserMessage ⟨h.room, h.session_and_user_id.user_id, content⟩)).2)] = _
    rw [send_snd]
  · show (if (r.broadcast_tx.send
        (Event.UserMessage ⟨h.room, h.session_and_user_id.user_id, content⟩)).2 then
        (Except.ok () : Except String Unit)
      else Except.error "could not write to the broadcast channel") = _
    rw [send_snd]
    by_cases hemp : r.broadcast_tx.receivers.isEmpty <;> simp [hemp]
  · show (⟨h.room, h.session_and_user_id.user_id, content⟩ : UserMessageBroadcastEvent) ∈
      pushEvict r.history ⟨h.room, h.session_and_user_id.user_id, content⟩
    exact mem_pushEvict r.history _

theorem join_trace_eq (r : ChatRoom) (s : SessionAndUserId) :
    (r.join s).trace =
      [RoomAction.cloneSender, RoomAction.subscribeReceiver, RoomAction.constructHandle,
       RoomAction.registryInsert s.user_id (r.user_registry.insert s.user_id).2] ++
      (if (r.user_registry.insert s.user_id).2 then
        [RoomAction.channelSend
          (Event.RoomParticipation
            ⟨s.user_id, r.metadata.name, RoomParticipationStatus.Joined⟩)
          true]
      else []) := by
  cases hff : (r.user_registry.insert s.user_id).2 with
  | false =>
    simp [ChatRoom.join, UserSessionHandle.new, UserSessionHandle.user_id, hff]
  | true =>
    have hok : ((r.broadcast_tx.subscribe).1.send
        (Event.RoomParticipation
          ⟨s.user_id, r.metadata.name, RoomParticipationStatus.Joined⟩)).2 = true := by
      rw [send_snd]
      simp [BroadcastChannel.subscribe]
    simp [ChatRoom.join, UserSessionHandle.new, UserSessionHandle.user_id, hff, hok]

theorem join_handle_eq (r : ChatRoom) (s : SessionAndUserId) :
    (r.join s).handle = UserSessionHandle.new r.metadata.name s := by
  cases hff : (r.user_registry.insert s.user_id).2 <;>
    simp [ChatRoom.join, UserSessionHandle.new, UserSessionHandle.user_id, hff]

theorem join_rx_eq (r : ChatRoom) (s : SessionAndUserId) :
    (r.join s).rx = r.broadcast_tx.receivers.length := by
  cases hff : (r.user_registry.insert s.user_id).2 <;>
    simp [ChatRoom.join, BroadcastChannel.subscribe, UserSessionHandle.new,
      UserSessionHandle.user_id, hff]

theorem join_room_user_registry (r : ChatRoom) (s : SessionAndUserId) :
    (r.join s).room.user_registry = (r.user_registry.insert s.user_id).1 := by
  cases hff : (r.user_registry.insert s.user_id).2 <;>
    simp [ChatRoom.join, UserSessionHandle.new, UserSessionHandle.user_id, hff]

theorem join_room_metadata (r : ChatRoom) (s : SessionAndUserId) :
    (r.join s).room.metadata = r.metadata := by
  cases hff : (r.user_registry.insert s.user_id).2 <;>
    simp [ChatRoom.join, UserSessionHandle.new, UserSessionHandle.user_id, hff]

theorem join_joined_sends (r : ChatRoom) (s : SessionAndUserId) :
    participationSends (r.join s).trace RoomParticipationStatus.Joined =
      if (r.user_registry.insert s.user_id).2 then 1 else 0 := by
  rw [join_trace_eq]
  cases hff : (r.user_registry.insert s.user_id).2 <;>
    simp [participationSends, RoomAction.isParticipationSend, hff]

theorem leave_trace_eq (r : ChatRoom) (h : UserSessionHandle) :
    (r.leave h).trace =
      [RoomAction.registryRemove h.user_id (r.user_registry.remove h.user_id).2] ++
      (if (r.user_registry.remove h.user_id).2 then
        [RoomAction.channelSend
          (Event.RoomParticipation
            ⟨h.user_id, r.metadata.name, RoomParticipationStatus.Left⟩)
          (!r.broadcast_tx.receivers.isEmpty)]
      else []) := by
  cases hff : (r.user_registry.remove h.user_id).2 <;>
    simp [ChatRoom.leave, hff, send_snd]

theorem leave_room_user_registry (r : ChatRoom) (h : UserSessionHandle) :
    (r.leave h).room.user_registry = (r.user_registry.remove h.user_id).1 := by
  cases hff : (r.user_registry.remove h.user_id).2 <;>
    simp [ChatRoom.leave, hff]

theorem leave_left_sends (r : ChatRoom) (h : UserSessionHandle) :
    participationSends (r.leave h).trace RoomParticipationStatus.Left =
      if (r.user_registry.remove h.user_id).2 then 1 else 0 := by
  rw [leave_trace_eq]
  cases hff : (r.user_registry.remove h.user_id).2 <;>
    simp [participationSends, RoomAction.isParticipationSend, hff]

theorem leave_joined_sends (r : ChatRoom) (h : UserSessionHandle) :
    participationSends (r.leave h).trace RoomParticipationStatus.Joined = 0 := by
  rw [leave_trace_eq]
  cases hff : (r.user_registry.remove h.user_id).2 <;>
    simp [participationSends, RoomAction.isParticipationSend, hff]

/-- C4: `ChatRoom::join` performs its steps in exactly this order: clone the sender,
subscribe the fresh receiver, construct the `UserSessionHandle`, register the user in
the `UserRegistry`, and only then conditionally broadcast the `Joined` event; in
particular the subscription precedes the registration and any `Joined` broadcast of
this join in the trace. -/
theorem join_step_order (r : ChatRoom) (s : SessionAndUserId) :
    (r.join s).trace =
      [RoomAction.cloneSender, RoomAction.subscribeReceiver, RoomAction.constructHandle,
       RoomAction.registryInsert s.user_id (r.user_registry.insert s.user_id).2] ++
      (if (r.user_registry.insert s.user_id).2 then
        [RoomAction.channelSend
          (Event.RoomParticipation
            ⟨s.user_id, r.metadata.name, RoomParticipationStatus.Joined⟩)
          true]
      else []) :=
  join_trace_eq r s

/-- C5: `ChatRoom::join` hands a `RoomParticipation{Joined}` event to the broadcast
channel if and only if `UserRegistry.insert` returned true; the send result is
discarded and never surfaced (the return value carries no error); and the receiver
index and the handle are returned unconditionally, with fixed values independent of
whether a `Joined` event was broadcast. -/
theorem join_broadcast_iff_first (r : ChatRoom) (s : SessionAndUserId) :
    (participationSends (r.join s).trace RoomParticipationStatus.Joined =
      if (r.user_registry.insert s.user_id).2 then 1 else 0) ∧
    (r.join s).handle = UserSessionHandle.new r.metadata.name s ∧
    (r.join s).rx = r.broadcast_tx.receivers.length :=
  ⟨join_joined_sends r s, join_handle_eq r s, join_rx_eq r s⟩

/-- C10: for both message-sending paths the event appended to the room's history and
the event handed to the broadcast channel are identical, and that event carries the
room name, the sender's userId and the content. -/
theorem recorded_equals_broadcast (r r2 : ChatRoom) (h : UserSessionHandle)
    (user_id content content2 : String) :
    (∃ e ok, (r.send_message user_id content).trace =
        [RoomAction.appendHistory e, RoomAction.channelSend (Event.UserMessage e) ok] ∧
      e = ⟨r.metadata.name, user_id, content⟩) ∧
    (∃ e ok, (h.send_message r2 content2).trace =
        [RoomAction.appendHistory e, RoomAction.channelSend (Event.UserMessage e) ok] ∧
      e = ⟨h.room, h.session_and_user_id.user_id, content2⟩) :=
  ⟨⟨⟨r.metadata.name, user_id, content⟩,
    (r.broadcast_tx.send (Event.UserMessage ⟨r.metadata.name, user_id, content⟩)).2,
    rfl, rfl⟩,
   ⟨⟨h.room, h.session_and_user_id.user_id, content2⟩,
    (r2.broadcast_tx.send
      (Event.UserMessage ⟨h.room, h.session_and_user_id.user_id, content2⟩)).2,
    rfl, rfl⟩⟩

/-- C9: when `ChatRoom::join` is called for a user's first active session, the
joining session's own returned receiver observes the `RoomParticipation{Joined}`
event generated by that join (its queue after the join holds exactly that event),
because the receiver is subscribed before the event is sent. -/
theorem join_receiver_observes_joined (r : ChatRoom) (s : SessionAndUserId)
    (h0 : r.user_registry.counts s.user_id = 0) :
    ((r.join s).room.broadcast_tx.receivers.getD (r.join s).rx ⟨[]⟩).queue =
      [Event.RoomParticipation
        ⟨s.user_id, r.metadata.name, RoomParticipationStatus.Joined⟩] := by
  have hfirst : (r.user_registry.insert s.user_id).2 = true := by
    simp [UserRegistry.insert, h0]
  have hroom : (r.join s).room.broadcast_tx =
      ((r.broadcast_tx.subscribe).1.send
        (Event.RoomParticipation
          ⟨s.user_id, r.metadata.name, RoomParticipationStatus.Joined⟩)).1 := by
    simp [ChatRoom.join, UserSessionHandle.new, UserSessionHandle.user_id, hfirst]
  rw [hroom, join_rx_eq]
  rw [send_receivers_of_ne_nil _ _ (by simp [BroadcastChannel.subscribe])]
  simp only [BroadcastChannel.subscribe, List.map_append, List.map_cons, List.map_nil]
  rw [show r.broadcast_tx.receivers.length =
      (r.broadcast_tx.receivers.map
        (fun q : BroadcastReceiver => q.push (Event.RoomParticipation
          ⟨s.user_id, r.metadata.name, RoomParticipationStatus.Joined⟩))).length
      from (List.length_map _ _).symm]
  rw [getD_append_length]
  simp [BroadcastReceiver.push, BROADCAST_CHANNEL_CAPACITY]

/-- Witness for C9 at a concrete fresh room and first session. -/
theorem join_receiver_observes_joined_witness :
    demoRoom.user_registry.counts "u1" = 0 ∧
    ((demoRoom.join ⟨"s1", "u1"⟩).room.broadcast_tx.receivers.getD
        (demoRoom.join ⟨"s1", "u1"⟩).rx ⟨[]⟩).queue =
      [Event.RoomParticipation
        ⟨(⟨"s1", "u1"⟩ : SessionAndUserId).user_id, demoRoom.metadata.name,
         RoomParticipationStatus.Joined⟩] :=
  ⟨rfl, join_receiver_observes_joined demoRoom ⟨"s1", "u1"⟩ rfl⟩

/-- C2: when one userId joins a room with two distinct sessionIds (via
`ChatRoom::join`) and later leaves with both (via `ChatRoom::leave`), exactly one
`RoomParticipation{Joined}` event is handed to the broadcast channel across the two
joins; leaving the first of the two sessions broadcasts no participation event;
leaving the second (last) session broadcasts exactly one `RoomParticipation{Left}`
event. -/
theorem join_leave_dedup (r : ChatRoom) (s1 s2 : SessionAndUserId) (u : String)
    (h1 : s1.user_id = u) (h2 : s2.user_id = u) (hs : s1.session_id ≠ s2.session_id)
    (h0 : r.user_registry.counts u = 0) :
    participationSends (r.join s1).trace RoomParticipationStatus.Joined +
      participationSends ((r.join s1).room.join s2).trace
        RoomParticipationStatus.Joined = 1 ∧
    participationSends
      (((r.join s1).room.join s2).room.leave (r.join s1).handle).trace
        RoomParticipationStatus.Joined = 0 ∧
    participationSends
      (((r.join s1).room.join s2).room.leave (r.join s1).handle).trace
        RoomParticipationStatus.Left = 0 ∧
    participationSends
      ((((r.join s1).room.join s2).room.leave (r.join s1).handle).room.leave
        ((r.join s1).room.join s2).handle).trace
        RoomParticipationStatus.Left = 1 := by
  subst h1
  have hfirst1 : (r.user_registry.insert s1.user_id).2 = true := by
    simp [UserRegistry.insert, h0]
  have hreg1 : (r.join s1).room.user_registry = (r.user_registry.insert s1.user_id).1 :=
    join_room_user_registry r s1
  have hc1 : (r.join s1).room.user_registry.counts s2.user_id = 1 := by
    rw [hreg1]
    simp [UserRegistry.insert, h2, h0]
  have hfirst2 : ((r.join s1).room.user_registry.insert s2.user_id).2 = false := by
    simp [UserRegistry.insert, hc1]
  have hj1 : participationSends (r.join s1).trace RoomParticipationStatus.Joined = 1 := by
    simp [join_joined_sends, hfirst1]
  have hj2 : participationSends ((r.join s1).room.join s2).trace
      RoomParticipationStatus.Joined = 0 := by
    simp [join_joined_sends, hfirst2]
  have h1handle : (r.join s1).handle.user_id = s1.user_id := by
    rw [join_handle_eq]
    rfl
  have h2handle : ((r.join s1).room.join s2).handle.user_id = s2.user_id := by
    rw [join_handle_eq]
    rfl
  have hreg2 : ((r.join s1).room.join s2).room.user_registry =
      ((r.join s1).room.user_registry.insert s2.user_id).1 :=
    join_room_user_registry _ s2
  have hc2 : ((r.join s1).room.join s2).room.user_registry.counts s1.user_id = 2 := by
    rw [hreg2, hreg1]
    simp [UserRegistry.insert, h2, h0]
  have hlast1 : (((r.join s1).room.join s2).room.user_registry.remove
      ((r.join s1).handle.user_id)).2 = false := by
    rw [h1handle]
    simp [UserRegistry.remove, hc2]
  have hl1Joined : participationSends
      (((r.join s1).room.join s2).room.leave (r.join s1).handle).trace
        RoomParticipationStatus.Joined = 0 :=
    leave_joined_sends _ _
  have hl1Left : participationSends
      (((r.join s1).room.join s2).room.leave (r.join s1).handle).trace
        RoomParticipationStatus.Left = 0 := by
    simp [leave_left_sends, hlast1]
  have hreg3 : (((r.join s1).room.join s2).room.leave (r.join s1).handle).room.user_registry =
      (((r.join s1).room.join s2).room.user_registry.remove
        ((r.join s1).handle.user_id)).1 :=
    leave_room_user_registry _ _
  have hlast2 : ((((r.join s1).room.join s2).room.leave (r.join s1).handle).room.user_registry.remove
      (((r.join s1).room.join s2).handle.user_id)).2 = true := by
    rw [h2handle, hreg3, h1handle, hreg2, hreg1]
    simp [UserRegistry.remove, UserRegistry.insert, h2, h0]
  have hl2Left : participationSends
      ((((r.join s1).room.join s2).room.leave (r.join s1).handle).room.leave
        ((r.join s1).room.join s2).handle).trace
        RoomParticipationStatus.Left = 1 := by
    simp [leave_left_sends, hlast2]
  exact ⟨by rw [hj1, hj2], hl1Joined, hl1Left, hl2Left⟩

/-- Witness for C2: user "u1" with sessions "s1" and "s2" in a fresh room. -/
theorem join_leave_dedup_witness :
    ((⟨"s1", "u1"⟩ : SessionAndUserId).user_id = "u1") ∧
    ((⟨"s2", "u1"⟩ : SessionAndUserId).user_id = "u1") ∧
    ((⟨"s1", "u1"⟩ : SessionAndUserId).session_id ≠
      (⟨"s2", "u1"⟩ : SessionAndUserId).session_id) ∧
    (demoRoom.user_registry.counts "u1" = 0) ∧
    (participationSends (demoRoom.join ⟨"s1", "u1"⟩).trace
        RoomParticipationStatus.Joined +
      participationSends ((demoRoom.join ⟨"s1", "u1"⟩).room.join ⟨"s2", "u1"⟩).trace
        RoomParticipationStatus.Joined = 1 ∧
    participationSends
      (((demoRoom.join ⟨"s1", "u1"⟩).room.join ⟨"s2", "u1"⟩).room.leave
        (demoRoom.join ⟨"s1", "u1"⟩).handle).trace
        RoomParticipationStatus.Joined = 0 ∧
    participationSends
      (((demoRoom.join ⟨"s1", "u1"⟩).room.join ⟨"s2", "u1"⟩).room.leave
        (demoRoom.join ⟨"s1", "u1"⟩).handle).trace
        RoomParticipationStatus.Left = 0 ∧
    participationSends
      ((((demoRoom.join ⟨"s1", "u1"⟩).room.join ⟨"s2", "u1"⟩).room.leave
        (demoRoom.join ⟨"s1", "u1"⟩).handle).room.leave
        ((demoRoom.join ⟨"s1", "u1"⟩).room.join ⟨"s2", "u1"⟩).handle).trace
        RoomParticipationStatus.Left = 1) :=
  ⟨rfl, rfl, by decide, rfl,
   join_leave_dedup demoRoom ⟨"s1", "u1"⟩ ⟨"s2", "u1"⟩ "u1" rfl rfl (by decide) rfl⟩
